import Mathlib

/-!
Verification of the Post Resource Manager
(src/controllers/post.controller.go, package controllers).

The controller functions CreatePost, UpdatePost, FindPostById, FindPosts and
DeletePost are embedded as pure Lean functions over an explicit store state
(a list of Post records ordered by primary key, mirroring the table scanned
in primary-key order by the gorm First primitive).  The gorm primitives used
by the controller are embedded with their documented semantics:

* `DB.First(&p, "id = ?", postId)` — first record matching the id, an error
  (ErrRecordNotFound) when none matches: `dbFirst`.
* `DB.Model(&m).Updates(v)` with a struct argument — updates only the fields
  of `v` whose value is not the zero value of its type, keyed on the primary
  key of `m`, and assigns every written value back onto the in-memory model
  `m`: `mergeNonZero` plus the store map in `updatePost`.
* `DB.Limit(n)` emits a LIMIT clause exactly when `n >= 0` (so `LIMIT 0`
  returns no rows), and `DB.Offset(k)` emits an OFFSET clause exactly when
  `k > 0`: the windowing in `findPosts`.
* `DB.Delete(&Post, "id = ?", postId)` deletes every matching row and
  reports no error when zero rows match: `deletePost`.

Store-level failures (connection faults, the Postgres duplicate-key error on
a unique index, ...) originate outside this code, so each embedded operation
takes the store outcome of its write/read as an `Option String` parameter:
`none` for a successful round trip, `some e` for a store error whose message
is `e`, exactly the `result.Error` the controller inspects.

Identifiers (post id, user id) are modelled as `Nat` and timestamps as `Nat`
instants; request payloads are the shapes left after a successful JSON bind,
with `none` standing for a bind failure.
-/

namespace GormPosts

/-- Go `strings.HasPrefix` on character lists: `startsWithChars s sub` is
true when `sub` is an initial segment of `s`. -/
def startsWithChars : List Char → List Char → Bool
  | _, [] => true
  | [], _ :: _ => false
  | a :: as, b :: bs => a == b && startsWithChars as bs

/-- Go `strings.Contains` on character lists: some tail of `s` starts with
`sub`. -/
def containsChars : List Char → List Char → Bool
  | [], sub => startsWithChars [] sub
  | c :: t, sub => startsWithChars (c :: t) sub || containsChars t sub

/-- Go `strings.Contains (s, sub)`, used by CreatePost to detect the
Postgres duplicate-key message inside the store error. -/
def strContains (s sub : String) : Bool :=
  containsChars s.data sub.data

/-- Base-10 digit run: `none` when the run is empty or holds a non-digit,
mirroring the syntax errors of strconv. -/
def digitsVal (cs : List Char) : Option Nat :=
  match cs with
  | [] => none
  | _ =>
    cs.foldl
      (fun acc c =>
        match acc with
        | none => none
        | some n => if c.isDigit then some (10 * n + (c.toNat - 48)) else none)
      (some 0)

/-- Syntax-level part of Go `strconv.Atoi`: optional sign followed by at
least one digit, `none` on a syntax error.  The value is the mathematical
integer the numeral denotes; the range clamp `strconv.ParseInt` applies to
it on a 64-bit platform is added in `atoi`. -/
def goAtoi (s : String) : Option Int :=
  match s.data with
  | [] => none
  | c :: rest =>
    if c == '-' then (digitsVal rest).map (fun n => -(n : Int))
    else if c == '+' then (digitsVal rest).map (fun n => (n : Int))
    else (digitsVal (c :: rest)).map (fun n => (n : Int))

/-- Two-complement wrap of an integer into the signed 64-bit range
[-9223372036854775808, 9223372036854775807] (that is, [-2^63, 2^63 - 1]):
the arithmetic of the Go `int` type on a 64-bit platform.  The modulus
18446744073709551616 is 2^64. -/
def wrap64 (n : Int) : Int :=
  (n + 9223372036854775808) % 18446744073709551616 - 9223372036854775808

/-- The controller discards the error of `strconv.Atoi` with `intPage, _ :=
strconv.Atoi(page)` and uses the returned value anyway.  On a syntax error
the Go function has returned 0; on a range error it has returned the value
clamped to MinInt64/MaxInt64 (the maximum magnitude integer of the
appropriate sign, per the ParseInt contract); otherwise the parsed value,
which then fits in 64 bits. -/
def atoi (s : String) : Int :=
  match goAtoi s with
  | none => 0
  | some n =>
    if n < -9223372036854775808 then -9223372036854775808
    else if 9223372036854775807 < n then 9223372036854775807
    else n

/-- Modelled from the spec: `models.Post` (the models package is not under
src/).  Fields are those the controller reads and writes — `Title`,
`Content`, `Image`, `User` (the owner id), `CreatedAt`, `UpdatedAt` — plus
the store-assigned primary key `ID`.  Ids and timestamps are `Nat`; the Go
zero values (empty string, zero uuid, zero time) are `""` and `0`. -/
structure Post where
  id : Nat
  title : String
  content : String
  image : String
  user : Nat
  createdAt : Nat
  updatedAt : Nat
deriving DecidableEq

/-- Modelled from the spec: `models.CreatePostRequest` — the payload shape
bound from the Create request body: title, content, image. -/
structure CreatePostRequest where
  title : String
  content : String
  image : String
deriving DecidableEq

/-- Modelled from the spec: `models.UpdatePost` — the payload shape bound
from the Update request body: title, content, image. -/
structure UpdatePost where
  title : String
  content : String
  image : String
deriving DecidableEq

/-- `DB.First(&p, "id = ?", postId)`: the first stored record whose id
matches, `none` when no record matches (the gorm ErrRecordNotFound case). -/
def dbFirst (store : List Post) (postId : Nat) : Option Post :=
  match store with
  | [] => none
  | p :: rest => if p.id == postId then some p else dbFirst rest postId

/-- gorm `Updates` with a struct argument: each field of `upd` overwrites
the corresponding field of `target` exactly when its value is not the zero
value of its type; zero-valued fields are skipped and keep the stored
value.  This is both the SET list sent to the store and the write-back onto
the in-memory model. -/
def mergeNonZero (target upd : Post) : Post :=
  { id := if upd.id == 0 then target.id else upd.id
    title := if upd.title == "" then target.title else upd.title
    content := if upd.content == "" then target.content else upd.content
    image := if upd.image == "" then target.image else upd.image
    user := if upd.user == 0 then target.user else upd.user
    createdAt := if upd.createdAt == 0 then target.createdAt else upd.createdAt
    updatedAt := if upd.updatedAt == 0 then target.updatedAt else upd.updatedAt }

/-- The `postToUpdate` value built by UpdatePost (post.controller.go lines
86-93): payload title/content/image, `User` from the requester, `CreatedAt`
copied from the record just read, `UpdatedAt = now`; the primary key is left
at its zero value. -/
def payloadPost (updatedPost : Post) (currentUserId : Nat) (pl : UpdatePost)
    (now : Nat) : Post :=
  { id := 0
    title := pl.title
    content := pl.content
    image := pl.image
    user := currentUserId
    createdAt := updatedPost.createdAt
    updatedAt := now }

/-- Outcome of CreatePost: HTTP status, the `data` payload when one is sent,
and the store after the call. -/
structure CreateOutcome where
  status : Nat
  body : Option Post
  store : List Post
deriving DecidableEq

/-- Outcome of UpdatePost: HTTP status, the `data` payload when one is sent,
and the store after the call. -/
structure UpdateOutcome where
  status : Nat
  body : Option Post
  store : List Post
deriving DecidableEq

/-- Outcome of FindPosts: HTTP status, the `results` count and the `data`
page. -/
structure FindOutcome where
  status : Nat
  results : Nat
  data : List Post
deriving DecidableEq

/-- Outcome of DeletePost: HTTP status and the store after the call. -/
structure DeleteOutcome where
  status : Nat
  store : List Post
deriving DecidableEq

/-- CreatePost (post.controller.go lines 33-63).  A bind failure (payload
`none`) answers 400 with the parse error.  Otherwise the new record is
stamped with the requester id and `createdAt = updatedAt = now` and handed
to `DB.Create`; `newId` is the primary key the store assigns and writes back
into the record.  On a store error the controller answers 409 when the
message contains "duplicate key" and 502 otherwise; on success it answers
201 with the created record. -/
def createPost (store : List Post) (currentUserId : Nat)
    (payload : Option CreatePostRequest) (now : Nat) (newId : Nat)
    (writeErr : Option String) : CreateOutcome :=
  match payload with
  | none => { status := 400, body := none, store := store }
  | some pl =>
    let newPost : Post :=
      { id := newId, title := pl.title, content := pl.content
        image := pl.image, user := currentUserId
        createdAt := now, updatedAt := now }
    match writeErr with
    | some e =>
      if strContains e "duplicate key" then
        { status := 409, body := none, store := store }
      else
        { status := 502, body := none, store := store }
    | none => { status := 201, body := some newPost, store := store ++ [newPost] }

/-- UpdatePost (post.controller.go lines 70-98).  A bind failure answers 502
(the controller uses StatusBadGateway there).  A failed `First` answers 404
with the store untouched.  Otherwise `postToUpdate` is merged into the
record with `DB.Model(&updatedPost).Updates(postToUpdate)`: the store row is
rewritten only when the write succeeds (`writeErr = none`), the in-memory
model receives the merged values in every case, the write error itself is
never inspected, and the response is always 200 with the model. -/
def updatePost (store : List Post) (postId : Nat) (currentUserId : Nat)
    (payload : Option UpdatePost) (now : Nat) (writeErr : Option String) :
    UpdateOutcome :=
  match payload with
  | none => { status := 502, body := none, store := store }
  | some pl =>
    match dbFirst store postId with
    | none => { status := 404, body := none, store := store }
    | some updatedPost =>
      let merged := mergeNonZero updatedPost (payloadPost updatedPost currentUserId pl now)
      let nextStore :=
        if writeErr.isNone then
          store.map (fun q => if q.id == updatedPost.id then merged else q)
        else store
      { status := 200, body := some merged, store := nextStore }

/-- FindPostById (post.controller.go lines 106-117): 404 when no record
matches, otherwise 200 with the record. -/
def findPostById (store : List Post) (postId : Nat) : UpdateOutcome :=
  match dbFirst store postId with
  | none => { status := 404, body := none, store := store }
  | some post => { status := 200, body := some post, store := store }

/-- FindPosts (post.controller.go lines 123-139).  `page` and `limit`
default to "1"/"10" when the query parameter is absent, are parsed with the
error discarded (`atoi`), and `offset := (intPage - 1) * intLimit` is
computed in the Go `int` type, so the subtraction and the multiplication
each wrap in 64 bits (`wrap64`; `intPage` and `intLimit` are already
in-range).  The store applies LIMIT exactly when `intLimit >= 0` and OFFSET
exactly when `offset > 0`.  A store read error answers 502; otherwise 200
with `results = len(posts)` and the page itself. -/
def findPosts (pageQ limitQ : Option String) (store : List Post)
    (readErr : Option String) : FindOutcome :=
  let page := pageQ.getD "1"
  let limit := limitQ.getD "10"
  let intPage := atoi page
  let intLimit := atoi limit
  let offset := wrap64 (wrap64 (intPage - 1) * intLimit)
  match readErr with
  | some _ => { status := 502, results := 0, data := [] }
  | none =>
    let afterOffset := if 0 < offset then store.drop offset.toNat else store
    let posts := if 0 ≤ intLimit then afterOffset.take intLimit.toNat else afterOffset
    { status := 200, results := posts.length, data := posts }

/-- DeletePost (post.controller.go lines 147-158).  `DB.Delete` removes
every row matching the id and reports an error only for a store-level
failure — never for matching zero rows.  The controller answers 404 on any
store error and 204 otherwise; it never reads `RowsAffected`. -/
def deletePost (store : List Post) (postId : Nat) (storeErr : Option String) :
    DeleteOutcome :=
  match storeErr with
  | some _ => { status := 404, store := store }
  | none => { status := 204, store := store.filter (fun p => !(p.id == postId)) }

/-- A concrete stored record used by the closed counterexamples. -/
def post0 : Post :=
  { id := 1, title := "old title", content := "old content", image := "old image"
    user := 1, createdAt := 5, updatedAt := 5 }

/-- A concrete update payload with every field non-empty. -/
def pl0 : UpdatePost :=
  { title := "new title", content := "new content", image := "new image" }

/-- The n-th post of the 15-record pagination scenario. -/
def mkPost (n : Nat) : Post :=
  { id := n + 1, title := "t" ++ toString n, content := "c", image := ""
    user := 1, createdAt := n, updatedAt := n }

/-- Fifteen stored posts, ids 1..15, in primary-key order. -/
def store15 : List Post :=
  (List.range 15).map mkPost

/-- Any record returned by `dbFirst store pid` carries the id `pid`. -/
theorem dbFirst_eq_id : ∀ (store : List Post) (pid : Nat) (p : Post),
    dbFirst store pid = some p → p.id = pid := by
  intro store
  induction store with
  | nil => intro pid p h; simp [dbFirst] at h
  | cons a t ih =>
    intro pid p h
    by_cases ha : a.id = pid
    · have hap : a = p := by simpa [dbFirst, ha] using h
      rw [← hap]; exact ha
    · exact ih pid p (by simpa [dbFirst, ha] using h)

/-- Rewriting every row whose id matches the found record with a value `m`
of the same id makes `m` the record `dbFirst` now returns. -/
theorem dbFirst_map_replace : ∀ (store : List Post) (pid : Nat) (p m : Post),
    dbFirst store pid = some p → m.id = p.id →
    dbFirst (store.map (fun q => if q.id == p.id then m else q)) pid = some m := by
  intro store
  induction store with
  | nil => intro pid p m h _; simp [dbFirst] at h
  | cons a t ih =>
    intro pid p m h hm
    by_cases ha : a.id = pid
    · have hap : a = p := by simpa [dbFirst, ha] using h
      subst hap
      simp [dbFirst, hm, ha]
    · have h' : dbFirst t pid = some p := by simpa [dbFirst, ha] using h
      have hpid : p.id = pid := dbFirst_eq_id t pid p h'
      have hne : ¬ a.id = p.id := by rw [hpid]; exact ha
      simpa [dbFirst, hne, ha] using ih pid p m h' hm

/-- The merged record written by UpdatePost keeps the primary key of the
record that was read. -/
theorem merged_id (p : Post) (uid : Nat) (pl : UpdatePost) (now : Nat) :
    (mergeNonZero p (payloadPost p uid pl now)).id = p.id := by
  simp [mergeNonZero, payloadPost]

/-- Shape of `updatePost` when the lookup succeeds: status 200, the merged
record as the body, and the store rewritten exactly when the write
succeeded. -/
theorem updatePost_found (store : List Post) (pid uid : Nat) (pl : UpdatePost)
    (now : Nat) (werr : Option String) (p : Post)
    (hfind : dbFirst store pid = some p) :
    updatePost store pid uid (some pl) now werr =
      { status := 200
        body := some (mergeNonZero p (payloadPost p uid pl now))
        store :=
          if werr.isNone then
            store.map (fun q =>
              if q.id == p.id then mergeNonZero p (payloadPost p uid pl now) else q)
          else store } := by
  simp [updatePost, hfind]

/-- C1: the claim states that Delete on a postId matching no stored record
answers NotFound (404).  The code answers 204 No Content instead: gorm
reports no error for a zero-row delete and DeletePost never inspects the
deleted-row count.  This theorem evaluates the code at the failing input
(empty store, postId 1, no store fault). -/
theorem C1_delete_missing_reports_success :
    (deletePost [] 1 none).status = 204 ∧ (deletePost [] 1 none).status ≠ 404 := by
  decide

/-- C2: the claim states that a failed update write surfaces as
UpstreamFailure (502).  The code never reads the result of the Updates
call: at an existing record with a store write error, the response is still
200 success and the stored row keeps its old value.  This theorem evaluates
the code at the failing input. -/
theorem C2_update_write_failure_swallowed :
    (updatePost [post0] 1 1 (some pl0) 9 (some "connection reset by peer")).status = 200
    ∧ (updatePost [post0] 1 1 (some pl0) 9 (some "connection reset by peer")).status ≠ 502
    ∧ (updatePost [post0] 1 1 (some pl0) 9 (some "connection reset by peer")).store = [post0] := by
  decide

/-- C3 counterexample: post0 is owned by user 1; after an update issued by
requester 2 the stored record is owned by 2, so the owner does not equal
the owner set at creation. -/
theorem C3_owner_reassigned_cx :
    (dbFirst (updatePost [post0] 1 2 (some pl0) 9 none).store 1).map Post.user = some 2
    ∧ post0.user = 1 := by
  decide

/-- C3 amended: after a successful Update by a requester with a non-zero
id, the returned and stored record carries the requester id as its owner;
the creation owner survives only when the requester is the creator. -/
theorem C3_owner_follows_requester (store : List Post) (pid uid : Nat)
    (pl : UpdatePost) (now : Nat) (p : Post)
    (hfind : dbFirst store pid = some p) (huid : uid ≠ 0) :
    ∃ m, (updatePost store pid uid (some pl) now none).body = some m
      ∧ dbFirst (updatePost store pid uid (some pl) now none).store pid = some m
      ∧ m.user = uid := by
  refine ⟨mergeNonZero p (payloadPost p uid pl now), ?_, ?_, ?_⟩
  · simp [updatePost_found store pid uid pl now none p hfind]
  · simp only [updatePost_found store pid uid pl now none p hfind,
      Option.isNone_none, if_true]
    exact dbFirst_map_replace store pid p _ hfind (merged_id p uid pl now)
  · simp [mergeNonZero, payloadPost, huid]

/-- C3 amended, witness: the concrete instance with creator 1 and
requester 2. -/
theorem C3_owner_follows_requester_witness :
    ∃ m, (updatePost [post0] 1 2 (some pl0) 9 none).body = some m
      ∧ dbFirst (updatePost [post0] 1 2 (some pl0) 9 none).store 1 = some m
      ∧ m.user = 2 :=
  C3_owner_follows_requester [post0] 1 2 pl0 9 post0 (by decide) (by decide)

/-- C5 counterexample: updating post0 with an all-new payload returns a
body different from the pre-update snapshot post0, so the response does not
reflect the record as read before the merge. -/
theorem C5_pre_update_snapshot_cx :
    (updatePost [post0] 1 1 (some pl0) 9 none).body ≠ some post0 := by
  decide

/-- C5 amended: the Post returned by a successful Update is the post-update
merged record — the same record a subsequent lookup of the id in the new
store returns — because the Updates call assigns the freshly written values
onto the in-memory model before it is serialized. -/
theorem C5_returns_written_record (store : List Post) (pid uid : Nat)
    (pl : UpdatePost) (now : Nat) (p : Post)
    (hfind : dbFirst store pid = some p) :
    ∃ m, (updatePost store pid uid (some pl) now none).body = some m
      ∧ dbFirst (updatePost store pid uid (some pl) now none).store pid = some m := by
  refine ⟨mergeNonZero p (payloadPost p uid pl now), ?_, ?_⟩
  · simp [updatePost_found store pid uid pl now none p hfind]
  · simp only [updatePost_found store pid uid pl now none p hfind,
      Option.isNone_none, if_true]
    exact dbFirst_map_replace store pid p _ hfind (merged_id p uid pl now)

/-- C5 amended, witness: the concrete single-record instance. -/
theorem C5_returns_written_record_witness :
    ∃ m, (updatePost [post0] 1 1 (some pl0) 9 none).body = some m
      ∧ dbFirst (updatePost [post0] 1 1 (some pl0) 9 none).store 1 = some m :=
  C5_returns_written_record [post0] 1 1 pl0 9 post0 (by decide)

/-- C6: CreatePost maps a store write error by substring inspection alone:
409 Conflict when the message contains "duplicate key", 502 otherwise, with
no further classification. -/
theorem C6_create_error_mapping (store : List Post) (uid : Nat)
    (pl : CreatePostRequest) (now newId : Nat) (e : String) :
    (createPost store uid (some pl) now newId (some e)).status
      = (if strContains e "duplicate key" then 409 else 502) := by
  by_cases h : strContains e "duplicate key" = true
  · simp [createPost, h]
  · simp [createPost, h]

/-- C6 witness: a duplicate-key message maps to 409 and an unrelated store
error maps to 502, at concrete inputs. -/
theorem C6_create_error_mapping_witness :
    (createPost [] 1 (some { title := "a", content := "b", image := "c" }) 3 1
        (some "ERROR: duplicate key value violates unique constraint")).status = 409
    ∧ (createPost [] 1 (some { title := "a", content := "b", image := "c" }) 3 1
        (some "connection refused")).status = 502 := by
  refine ⟨?_, ?_⟩
  · rw [C6_create_error_mapping [] 1 { title := "a", content := "b", image := "c" } 3 1
      "ERROR: duplicate key value violates unique constraint"]
    decide
  · rw [C6_create_error_mapping [] 1 { title := "a", content := "b", image := "c" } 3 1
      "connection refused"]
    decide

/-- C8: Update on a postId matching no stored record answers 404 NotFound,
sends no body and leaves the store untouched — the failed lookup returns
before any write is issued. -/
theorem C8_update_missing_not_found (store : List Post) (pid uid : Nat)
    (pl : UpdatePost) (now : Nat) (werr : Option String)
    (hfind : dbFirst store pid = none) :
    updatePost store pid uid (some pl) now werr =
      { status := 404, body := none, store := store } := by
  simp [updatePost, hfind]

/-- C8 witness: the concrete empty-store instance. -/
theorem C8_update_missing_not_found_witness :
    updatePost [] 1 1 (some pl0) 9 none =
      { status := 404, body := none, store := [] } :=
  C8_update_missing_not_found [] 1 1 pl0 9 none (by decide)

/-- Values already inside the signed 64-bit range are fixed points of the
two-complement wrap. -/
theorem wrap64_eq_self (n : Int) (h1 : -9223372036854775808 ≤ n)
    (h2 : n ≤ 9223372036854775807) : wrap64 n = n := by
  unfold wrap64
  rw [Int.emod_eq_of_lt (by omega) (by omega)]
  omega

/-- Whatever the input string, `atoi` lands in the signed 64-bit range:
the syntax-error fallback is 0 and out-of-range numerals are clamped. -/
theorem atoi_range (s : String) :
    -9223372036854775808 ≤ atoi s ∧ atoi s ≤ 9223372036854775807 := by
  unfold atoi
  cases goAtoi s with
  | none => decide
  | some n =>
    by_cases ha : n < -9223372036854775808
    · simp [ha]
    · by_cases hb : 9223372036854775807 < n
      · simp [ha, hb]
      · simp [ha, hb]
        omega

/-- C4 counterexample: with one stored post, List with non-numeric page and
limit strings returns an empty page, while List(page=1, limit=10) returns
the post — the two calls do not behave identically. -/
theorem C4_nonnumeric_cx :
    findPosts (some "abc") (some "xyz") [post0] none
      ≠ findPosts (some "1") (some "10") [post0] none
    ∧ (findPosts (some "abc") (some "xyz") [post0] none).data = [] := by
  decide

/-- C4 amended: an unparsable page or limit value does not fail the
operation (the status is still 200), but it degrades to 0, not to the
defaults: an unparsable page alone yields offset -limit, which the store
ignores, so the call coincides with page=1; an unparsable limit yields
LIMIT 0 and the returned page is empty rather than the default 10
records. -/
theorem C4_unparsable_degrades (store : List Post) (ps ls : String)
    (hp : goAtoi ps = none) (hl : goAtoi ls = none) :
    findPosts (some ps) (some "10") store none
      = findPosts (some "1") (some "10") store none
    ∧ (findPosts (some ps) (some ls) store none).status = 200
    ∧ (findPosts (some ps) (some ls) store none).data = [] := by
  have hps : atoi ps = 0 := by simp [atoi, hp]
  have hls : atoi ls = 0 := by simp [atoi, hl]
  have h1 : atoi "1" = 1 := by decide
  have h10 : atoi "10" = 10 := by decide
  have wm1 : wrap64 (-1) = -1 := by decide
  have wm10 : wrap64 (-10) = -10 := by decide
  have w0 : wrap64 0 = 0 := by decide
  refine ⟨?_, ?_, ?_⟩
  · norm_num [findPosts, hps, h1, h10, wm1, wm10, w0]
  · norm_num [findPosts, hps, hls, wm1, wm10, w0]
  · norm_num [findPosts, hps, hls, wm1, wm10, w0]

/-- C4 amended, witness: the concrete single-record instance with
non-numeric query values. -/
theorem C4_unparsable_degrades_witness :
    findPosts (some "abc") (some "10") [post0] none
      = findPosts (some "1") (some "10") [post0] none
    ∧ (findPosts (some "abc") (some "xyz") [post0] none).status = 200
    ∧ (findPosts (some "abc") (some "xyz") [post0] none).data = [] :=
  C4_unparsable_degrades [post0] "abc" "xyz" (by decide) (by decide)

/-- C7 counterexample: at page = limit = 4000000000 on a one-record store,
the Go product (page - 1) * limit wraps in 64 bits to a negative offset,
the store receives no OFFSET clause and the record is returned, while the
window the claim asserts — dropping the mathematical (page - 1) * limit
records — is empty.  The claimed offset formula fails once the offset
arithmetic overflows the int type. -/
theorem C7_overflow_cx :
    (findPosts (some "4000000000") (some "4000000000") [post0] none).data = [post0]
    ∧ ([post0].drop ((((4000000000:Int) - 1) * 4000000000).toNat)).take
        ((4000000000:Int).toNat) = [] := by
  decide

/-- C7 amended: for numeric page ≥ 1 and limit ≥ 1 whose product
(page - 1) * limit stays within the signed 64-bit range (no overflow in the
Go int arithmetic), the returned page is the window of the store dropping
(page - 1) * limit records and taking at most limit; the reported results
count is the length of the returned page, not the total; and on the
15-record store, page 1 with limit 10 holds 10 records while page 2 holds
exactly the remaining 5. -/
theorem C7_pagination_window_in_range :
    (∀ (store : List Post) (ps ls : String) (page limit : Int),
        atoi ps = page → atoi ls = limit → 1 ≤ page → 1 ≤ limit →
        (page - 1) * limit ≤ 9223372036854775807 →
        (findPosts (some ps) (some ls) store none).data
            = (store.drop (((page - 1) * limit).toNat)).take limit.toNat
          ∧ (findPosts (some ps) (some ls) store none).results
              = (findPosts (some ps) (some ls) store none).data.length
          ∧ (findPosts (some ps) (some ls) store none).data.length ≤ limit.toNat)
    ∧ (findPosts (some "1") (some "10") store15 none).data.length = 10
    ∧ (findPosts (some "2") (some "10") store15 none).data = store15.drop 10
    ∧ (findPosts (some "2") (some "10") store15 none).data.length = 5 := by
  refine ⟨?_, by decide, by decide, by decide⟩
  intro store ps ls page limit hp hl hp1 hl1 hnof
  have hpr := atoi_range ps
  rw [hp] at hpr
  have hw1 : wrap64 (page - 1) = page - 1 :=
    wrap64_eq_self _ (by omega) (by omega)
  have hprod0 : 0 ≤ (page - 1) * limit := mul_nonneg (by omega) (by omega)
  have hw2 : wrap64 ((page - 1) * limit) = (page - 1) * limit :=
    wrap64_eq_self _ (by omega) (by omega)
  have w0 : wrap64 0 = 0 := by decide
  have hlim0 : (0:Int) ≤ limit := by omega
  by_cases hpos : 0 < (page - 1) * limit
  · have hdata : (findPosts (some ps) (some ls) store none).data
        = (store.drop (((page - 1) * limit).toNat)).take limit.toNat := by
      simp [findPosts, hp, hl, hw1, hw2, hpos, hlim0]
    refine ⟨hdata, ?_, ?_⟩
    · simp [findPosts, hp, hl, hw1, hw2, hpos, hlim0]
    · rw [hdata]; exact List.length_take_le _ _
  · have hz : (page - 1) * limit = 0 := by omega
    have hdata : (findPosts (some ps) (some ls) store none).data
        = (store.drop (((page - 1) * limit).toNat)).take limit.toNat := by
      simp [findPosts, hp, hl, hw1, hw2, hz, w0, hlim0]
    refine ⟨hdata, ?_, ?_⟩
    · simp [findPosts, hp, hl, hw1, hw2, hz, w0, hlim0]
    · rw [hdata]; exact List.length_take_le _ _

/-- C7 amended, witness: the general window formula instantiated at page 2,
limit 3 on the 15-record store. -/
theorem C7_pagination_window_in_range_witness :
    (findPosts (some "2") (some "3") store15 none).data
        = (store15.drop ((((2:Int) - 1) * 3).toNat)).take (3:Int).toNat
      ∧ (findPosts (some "2") (some "3") store15 none).results
          = (findPosts (some "2") (some "3") store15 none).data.length
      ∧ (findPosts (some "2") (some "3") store15 none).data.length ≤ (3:Int).toNat :=
  C7_pagination_window_in_range.1 store15 "2" "3" 2 3 (by decide) (by decide)
    (by decide) (by decide) (by decide)

/-- C9: a successful Update keeps the stored createdAt and moves the stored
updatedAt to the operation instant, which is at least the previous
updatedAt when the clock is monotone, so createdAt ≤ updatedAt is
preserved; the record returned and the record stored agree. -/
theorem C9_timestamps_preserved (store : List Post) (pid uid : Nat)
    (pl : UpdatePost) (now : Nat) (p : Post)
    (hfind : dbFirst store pid = some p)
    (hinv : p.createdAt ≤ p.updatedAt) (hmono : p.updatedAt ≤ now) :
    ∃ m, (updatePost store pid uid (some pl) now none).body = some m
      ∧ dbFirst (updatePost store pid uid (some pl) now none).store pid = some m
      ∧ m.createdAt = p.createdAt
      ∧ p.updatedAt ≤ m.updatedAt
      ∧ m.createdAt ≤ m.updatedAt := by
  refine ⟨mergeNonZero p (payloadPost p uid pl now), ?_, ?_, ?_, ?_, ?_⟩
  · simp [updatePost_found store pid uid pl now none p hfind]
  · simp only [updatePost_found store pid uid pl now none p hfind,
      Option.isNone_none, if_true]
    exact dbFirst_map_replace store pid p _ hfind (merged_id p uid pl now)
  · simp [mergeNonZero, payloadPost]
  · by_cases h : now = 0
    · simp [mergeNonZero, payloadPost, h]
    · simpa [mergeNonZero, payloadPost, h] using hmono
  · by_cases h : now = 0
    · simpa [mergeNonZero, payloadPost, h] using hinv
    · simpa [mergeNonZero, payloadPost, h] using le_trans hinv hmono

/-- C9 witness: the concrete single-record instance with createdAt 5,
updatedAt 5 and the update at instant 9. -/
theorem C9_timestamps_preserved_witness :
    ∃ m, (updatePost [post0] 1 1 (some pl0) 9 none).body = some m
      ∧ dbFirst (updatePost [post0] 1 1 (some pl0) 9 none).store 1 = some m
      ∧ m.createdAt = post0.createdAt
      ∧ post0.updatedAt ≤ m.updatedAt
      ∧ m.createdAt ≤ m.updatedAt :=
  C9_timestamps_preserved [post0] 1 1 pl0 9 post0 (by decide) (by decide) (by decide)

/-- C10: the struct-based merge of a successful Update skips every payload
field among title, content and image whose value is the empty string — the
stored value survives — and overwrites with every non-empty payload field;
the record returned and the record stored agree. -/
theorem C10_empty_payload_fields_skipped (store : List Post) (pid uid : Nat)
    (pl : UpdatePost) (now : Nat) (p : Post)
    (hfind : dbFirst store pid = some p) :
    ∃ m, (updatePost store pid uid (some pl) now none).body = some m
      ∧ dbFirst (updatePost store pid uid (some pl) now none).store pid = some m
      ∧ (pl.title = "" → m.title = p.title)
      ∧ (pl.title ≠ "" → m.title = pl.title)
      ∧ (pl.content = "" → m.content = p.content)
      ∧ (pl.content ≠ "" → m.content = pl.content)
      ∧ (pl.image = "" → m.image = p.image)
      ∧ (pl.image ≠ "" → m.image = pl.image) := by
  refine ⟨mergeNonZero p (payloadPost p uid pl now), ?_, ?_, ?_, ?_, ?_, ?_, ?_, ?_⟩
  · simp [updatePost_found store pid uid pl now none p hfind]
  · simp only [updatePost_found store pid uid pl now none p hfind,
      Option.isNone_none, if_true]
    exact dbFirst_map_replace store pid p _ hfind (merged_id p uid pl now)
  · intro h; simp [mergeNonZero, payloadPost, h]
  · intro h; simp [mergeNonZero, payloadPost, h]
  · intro h; simp [mergeNonZero, payloadPost, h]
  · intro h; simp [mergeNonZero, payloadPost, h]
  · intro h; simp [mergeNonZero, payloadPost, h]
  · intro h; simp [mergeNonZero, payloadPost, h]

/-- C10 witness: a concrete update whose payload has a non-empty title and
empty content and image: the title is overwritten, the other two fields
keep their stored values. -/
theorem C10_empty_payload_fields_skipped_witness :
    ∃ m, (updatePost [post0] 1 1
            (some { title := "new title", content := "", image := "" }) 9 none).body
          = some m
      ∧ dbFirst (updatePost [post0] 1 1
            (some { title := "new title", content := "", image := "" }) 9 none).store 1
          = some m
      ∧ (("new title" : String) = "" → m.title = post0.title)
      ∧ (("new title" : String) ≠ "" → m.title = "new title")
      ∧ (("" : String) = "" → m.content = post0.content)
      ∧ (("" : String) ≠ "" → m.content = "")
      ∧ (("" : String) = "" → m.image = post0.image)
      ∧ (("" : String) ≠ "" → m.image = "") :=
  C10_empty_payload_fields_skipped [post0] 1 1
    { title := "new title", content := "", image := "" } 9 post0 (by decide)

end GormPosts
